import Mathlib

/-!
Verification of the `infini_converter` processing engine
(`src/infini_converter/processor.py` and the snapshot-diff logic of
`src/infini_converter/gui.py`) against its natural-language specification.

Strings are modelled as `List Char` (`Str` below); Python string methods
used by the source (`str.replace` with the concrete patterns that occur,
`str.strip`, `str.format` on the four fixed placeholders, `re` searches of
the fixed pattern list, `shlex.quote`, `os.path.basename`/`dirname`,
`glob.glob` with `*` wildcards) are embedded as executable Lean functions.
The file system is modelled as an explicit state (`FS`): an association
list of files with contents plus a list of directories.  Percentages are
modelled as rationals; the Python floats that appear in the claims
(42.0, 25.0, 100.0) are exactly representable, and the clamping that the
source applies makes every range statement independent of rounding.
-/

/-- Python strings are modelled as lists of characters. -/
abbrev Str := List Char

/-- Whitespace as Python's `str.strip` / `\s` see it (ASCII): space, tab,
newline, carriage return, form feed, vertical tab. -/
def pyIsSpace (c : Char) : Bool :=
  c = ' ' ∨ c = '\t' ∨ c = '\n' ∨ c = '\r' ∨ c = '\x0c' ∨ c = '\x0b'

/-- Python `str.strip()`: drop leading and trailing whitespace. -/
def pyStrip (s : Str) : Str :=
  ((s.dropWhile pyIsSpace).reverse.dropWhile pyIsSpace).reverse

/-- Split a maximal leading run of ASCII digits off a string. -/
def takeDigits : Str → Str × Str
  | [] => ([], [])
  | c :: cs =>
    if c.isDigit then
      let p := takeDigits cs
      (c :: p.1, p.2)
    else ([], c :: cs)

/-- Numeric value of a digit string (the regex groups are `\d+`, so
Python's `float(group)` always succeeds and is integral). -/
def digitsToNat (l : Str) : Nat :=
  l.foldl (fun acc c => acc * 10 + (c.toNat - 48)) 0

/-- Read a `\d+` group: at least one digit, maximal run (the regexes never
need to backtrack into a digit run because every following atom starts
with a non-digit character). -/
def readNat (l : Str) : Option (Nat × Str) :=
  let p := takeDigits l
  if p.1 = [] then none else some (digitsToNat p.1, p.2)

/-- Consume `\s*` greedily (no following atom of the source's patterns can
match a whitespace character, so greedy consumption is exact). -/
def skipWs (l : Str) : Str := l.dropWhile pyIsSpace

/-- Consume a literal case-insensitively (`re.IGNORECASE`), returning the
rest of the input. -/
def litCI : Str → Str → Option Str
  | [], l => some l
  | _ :: _, [] => none
  | p :: ps, c :: cs => if c.toLower = p.toLower then litCI ps cs else none

/-- Try a pattern matcher at every position, leftmost first: `re.search`. -/
def reSearch (m : Str → Option α) : Str → Option α
  | [] => m []
  | c :: cs => (m (c :: cs)).orElse fun _ => reSearch m cs

/-- Match `(\d+)%` at the current position. -/
def pctAt (l : Str) : Option Nat := do
  let (n, r) ← readNat l
  match r with
  | '%' :: _ => some n
  | _ => none

/-- Match `progress:\s*(\d+)%` at the current position. -/
def progressColonAt (l : Str) : Option Nat := do
  let r ← litCI "progress:".data l
  pctAt (skipWs r)

/-- Match `(\d+)%\s*word` at the current position (the source's
`complete` / `done` / `processed` / `finished` variants; the trailing
`.*` of the last pattern always matches and adds nothing). -/
def pctThenWordAt (w : Str) (l : Str) : Option Nat := do
  let (n, r) ← readNat l
  match r with
  | '%' :: r2 => do
    let _ ← litCI w (skipWs r2)
    some n
  | _ => none

/-- Match `progress\s*=\s*(\d+)%` at the current position. -/
def progressEqAt (l : Str) : Option Nat := do
  let r ← litCI "progress".data l
  match skipWs r with
  | '=' :: r2 => pctAt (skipWs r2)
  | _ => none

/-- The source's `percentage_patterns` list, in order (`(\d+)%`,
`progress:\s*(\d+)%`, `(\d+)%\s*complete`, `(\d+)%\s*done`,
`(\d+)%\s*processed`, `(\d+)%\s*finished`, `(\d+)%\s*complete`,
`progress\s*=\s*(\d+)%`, `(\d+)%\s*complete.*`), each tried with
`re.search`. -/
def percentagePatterns : List (Str → Option Nat) :=
  [reSearch pctAt,
   reSearch progressColonAt,
   reSearch (pctThenWordAt "complete".data),
   reSearch (pctThenWordAt "done".data),
   reSearch (pctThenWordAt "processed".data),
   reSearch (pctThenWordAt "finished".data),
   reSearch (pctThenWordAt "complete".data),
   reSearch progressEqAt,
   reSearch (pctThenWordAt "complete".data)]

/-- Return the group of the first pattern of the list that matches. -/
def firstMatch : List (Str → Option Nat) → Str → Option Nat
  | [], _ => none
  | m :: ms, l =>
    match m l with
    | some n => some n
    | none => firstMatch ms l

/-- Match `word\s*(\d+)\s*of\s*(\d+)` at the current position
(`frame` / `processing` / `file` / `item` / `task` variants). -/
def wordCountAt (w : Str) (l : Str) : Option (Nat × Nat) := do
  let r ← litCI w l
  let (a, r2) ← readNat (skipWs r)
  let r3 ← litCI "of".data (skipWs r2)
  let (b, _) ← readNat (skipWs r3)
  some (a, b)

/-- Match `(\d+)\s*/\s*(\d+)` at the current position. -/
def slashCountAt (l : Str) : Option (Nat × Nat) := do
  let (a, r) ← readNat l
  match skipWs r with
  | '/' :: r2 => do
    let (b, _) ← readNat (skipWs r2)
    some (a, b)
  | _ => none

/-- Match `(\d+)\s*out\s*of\s*(\d+)` at the current position. -/
def outOfCountAt (l : Str) : Option (Nat × Nat) := do
  let (a, r) ← readNat l
  let r2 ← litCI "out".data (skipWs r)
  let r3 ← litCI "of".data (skipWs r2)
  let (b, _) ← readNat (skipWs r3)
  some (a, b)

/-- The source's `count_patterns` list, in order. -/
def countPatterns : List (Str → Option (Nat × Nat)) :=
  [reSearch (wordCountAt "frame".data),
   reSearch slashCountAt,
   reSearch (wordCountAt "processing".data),
   reSearch (wordCountAt "file".data),
   reSearch (wordCountAt "item".data),
   reSearch (wordCountAt "task".data),
   reSearch outOfCountAt]

/-- Python's `min` (used as `min(100, percentage)`). -/
def pyMin (a b : ℚ) : ℚ := if b < a then b else a

/-- Python's `max` (used as `max(0, ...)`). -/
def pyMax (a b : ℚ) : ℚ := if b > a then b else a

/-- The source's clamp `max(0, min(100, percentage))`. -/
def clampPct (x : ℚ) : ℚ := pyMax 0 (pyMin 100 x)

/-- Result dictionary of `_parse_progress_from_output`: either
`{"type": "percentage", "value": v, "line": l}` or
`{"type": "count", "current": a, "total": b, "percentage": p, "line": l}`. -/
inductive ProgressInfo where
  | percentage (value : ℚ) (line : Str)
  | count (current total : ℚ) (percentage : ℚ) (line : Str)
deriving DecidableEq

/-- Count-pattern loop of `_parse_progress_from_output`: first pattern with
a match whose total is positive wins; a match with total 0 falls through
to the next pattern (`if total > 0` guards the return). The `except
ValueError: continue` of the source is dead code: the groups are `\d+`,
so `float(group)` never raises. -/
def tryCountPatterns : List (Str → Option (Nat × Nat)) → Str → Option ProgressInfo
  | [], _ => none
  | m :: ms, l =>
    match m l with
    | some (a, b) =>
      if 0 < b then
        some (.count a b (clampPct ((a : ℚ) / (b : ℚ) * 100)) l)
      else tryCountPatterns ms l
    | none => tryCountPatterns ms l

/-- Embeds `FileProcessor._parse_progress_from_output` (processor.py
818-890): try the percentage patterns first; on a match, clamp the value
to [0,100] and return a percentage record; otherwise try the count
patterns. -/
def parse_progress_from_output (line : Str) : Option ProgressInfo :=
  match firstMatch percentagePatterns line with
  | some g => some (.percentage (clampPct (g : ℚ)) line)
  | none => tryCountPatterns countPatterns line

/-- Embeds `FileProcessor._extract_percentage_from_output` (processor.py
892-909): the percentage of the parsed record, or -1 when nothing
matched. -/
def extract_percentage_from_output (line : Str) : ℚ :=
  match parse_progress_from_output line with
  | some (.percentage v _) => v
  | some (.count _ _ p _) => p
  | none => -1

theorem clampPct_range (x : ℚ) : 0 ≤ clampPct x ∧ clampPct x ≤ 100 := by
  unfold clampPct pyMax pyMin
  split
  · split at *
    · constructor <;> linarith
    · constructor <;> linarith
  · norm_num

theorem tryCountPatterns_range (ms : List (Str → Option (Nat × Nat))) (l : Str) :
    ∀ a b p li, tryCountPatterns ms l = some (.count a b p li) → 0 ≤ p ∧ p ≤ 100 := by
  induction ms with
  | nil => intro a b p li h; simp [tryCountPatterns] at h
  | cons m ms ih =>
    intro a b p li h
    unfold tryCountPatterns at h
    cases hm : m l with
    | none => rw [hm] at h; exact ih a b p li h
    | some ab =>
      rw [hm] at h
      by_cases hb : 0 < ab.2
      · simp [hb] at h
        rcases h with ⟨_, _, hp, _⟩
        rw [← hp]; exact clampPct_range _
      · simp [hb] at h; exact ih a b p li h

theorem tryCountPatterns_shape (ms : List (Str → Option (Nat × Nat))) (l : Str) :
    ∀ v li, tryCountPatterns ms l ≠ some (.percentage v li) := by
  induction ms with
  | nil => intro v li h; simp [tryCountPatterns] at h
  | cons m ms ih =>
    intro v li h
    unfold tryCountPatterns at h
    cases hm : m l with
    | none => rw [hm] at h; exact ih v li h
    | some ab =>
      rw [hm] at h
      by_cases hb : 0 < ab.2
      · simp [hb] at h
      · simp [hb] at h; exact ih v li h

/-- Percentage carried by a parse result: the `value` field of a
percentage record, the `percentage` field of a count record. -/
def progressPct : ProgressInfo → ℚ
  | .percentage v _ => v
  | .count _ _ p _ => p

/-- C5: progress extraction returns no-match or a percentage in [0,100];
direct percentage patterns are tried before count patterns (so
`"1 of 4 90%"` yields 90, not 25); a count match with total 0 yields no
match (`"frame 3 of 0"`); `"Processing: 42% complete"` yields 42,
`"Frame 3 of 12"` yields 25, `"no numbers here"` yields no match, and
`"150%"` is clamped to 100. The extractor is a total function, so it
never throws. -/
theorem c5_progress_extraction :
    (∀ line info, parse_progress_from_output line = some info →
      0 ≤ progressPct info ∧ progressPct info ≤ 100) ∧
    (∀ line, extract_percentage_from_output line = -1 ∨
      (0 ≤ extract_percentage_from_output line ∧
       extract_percentage_from_output line ≤ 100)) ∧
    parse_progress_from_output "Processing: 42% complete".data
      = some (.percentage 42 "Processing: 42% complete".data) ∧
    parse_progress_from_output "Frame 3 of 12".data
      = some (.count 3 12 25 "Frame 3 of 12".data) ∧
    parse_progress_from_output "no numbers here".data = none ∧
    extract_percentage_from_output "150%".data = 100 ∧
    extract_percentage_from_output "1 of 4 90%".data = 90 ∧
    parse_progress_from_output "frame 3 of 0".data = none := by
  have hparse : ∀ line info, parse_progress_from_output line = some info →
      0 ≤ progressPct info ∧ progressPct info ≤ 100 := by
    intro line info h
    unfold parse_progress_from_output at h
    cases hm : firstMatch percentagePatterns line with
    | some g =>
      rw [hm] at h
      cases h
      exact clampPct_range _
    | none =>
      rw [hm] at h
      cases info with
      | percentage v li => exact absurd h (tryCountPatterns_shape _ _ _ _)
      | count a b p li =>
        simpa [progressPct] using tryCountPatterns_range countPatterns line a b p li h
  refine ⟨hparse, ?_, ?_, ?_, ?_, ?_, ?_, ?_⟩
  · intro line
    cases hp : parse_progress_from_output line with
    | none => left; simp [extract_percentage_from_output, hp]
    | some info =>
      right
      have := hparse line info hp
      cases info with
      | percentage v li => simpa [extract_percentage_from_output, hp, progressPct] using this
      | count a b p li => simpa [extract_percentage_from_output, hp, progressPct] using this
  · norm_num [parse_progress_from_output, (by decide :
      firstMatch percentagePatterns "Processing: 42% complete".data = some 42),
      clampPct, pyMin, pyMax]
  · norm_num [parse_progress_from_output, (by decide :
      firstMatch percentagePatterns "Frame 3 of 12".data = none),
      tryCountPatterns, countPatterns, (by decide :
      reSearch (wordCountAt "frame".data) "Frame 3 of 12".data = some (3, 12)),
      clampPct, pyMin, pyMax]
  · decide
  · norm_num [extract_percentage_from_output, parse_progress_from_output, (by decide :
      firstMatch percentagePatterns "150%".data = some 150), clampPct, pyMin, pyMax]
  · norm_num [extract_percentage_from_output, parse_progress_from_output, (by decide :
      firstMatch percentagePatterns "1 of 4 90%".data = some 90), clampPct, pyMin, pyMax]
  · decide

/-- Python `str.replace` for a single-character pattern: every occurrence
of `c` becomes `rep` (single-character patterns cannot overlap, so the
replacement is character-wise). -/
def replaceChar (c : Char) (rep : Str) (l : Str) : Str :=
  l.flatMap fun x => if x = c then rep else [x]

/-- The `escape_map` of `escape_path_for_shell` for
`raw_escape=True, already_quoted=True` (processor.py 116-122), in the
source's iteration order. -/
def rawQuotedEscapeMap : List (Char × Str) :=
  [('"', ['\\', '"']),
   ('`', ['\\', '`']),
   ('$', ['\\', '$']),
   ('\\', ['\\', '\\']),
   ('!', ['\\', '!'])]

/-- The `escape_map` of `escape_path_for_shell` for
`raw_escape=True, already_quoted=False` (processor.py 125-156), in the
source's iteration order. -/
def rawUnquotedEscapeMap : List (Char × Str) :=
  [('"', ['\\', '"']),
   ('\'', ['\\', '\'']),
   ('`', ['\\', '`']),
   ('$', ['\\', '$']),
   ('\\', ['\\', '\\']),
   ('!', ['\\', '!']),
   ('&', ['\\', '&']),
   ('|', ['\\', '|']),
   (';', ['\\', ';']),
   ('<', ['\\', '<']),
   ('>', ['\\', '>']),
   ('(', ['\\', '(']),
   (')', ['\\', ')']),
   ('{', ['\\', '{']),
   ('}', ['\\', '}']),
   ('[', ['\\', '[']),
   (']', ['\\', ']']),
   ('*', ['\\', '*']),
   ('?', ['\\', '?']),
   ('~', ['\\', '~']),
   ('#', ['\\', '#']),
   ('\t', ['\\', '\t']),
   ('\n', ['\\', '\n']),
   ('\r', ['\\', '\r']),
   (' ', ['\\', ' '])]

/-- Application loop of `escape_path_for_shell` (processor.py 158-167):
escape the backslash first to avoid double-escaping, then every other
entry of the map in iteration order. -/
def applyEscapeMap (m : List (Char × Str)) (l : Str) : Str :=
  let l1 := match m.lookup '\\' with
    | some rep => replaceChar '\\' rep l
    | none => l
  m.foldl (fun acc e => if e.1 = '\\' then acc else replaceChar e.1 e.2 acc) l1

/-- Characters `shlex.quote` leaves bare: ASCII letters and digits plus
underscore, at-sign, percent, plus, equals, colon, comma, dot, slash and
hyphen (`_find_unsafe` finds anything else). -/
def shlexSafeChar (c : Char) : Bool :=
  c.isAlphanum ∨ c = '_' ∨ c = '@' ∨ c = '%' ∨ c = '+' ∨ c = '=' ∨
  c = ':' ∨ c = ',' ∨ c = '.' ∨ c = '/' ∨ c = '-'

/-- Python `shlex.quote`: empty becomes `''`, safe strings pass through,
anything else is single-quoted with embedded single quotes spliced as
`'"'"'`. -/
def shlexQuote (s : Str) : Str :=
  if s = [] then ['\'', '\'']
  else if s.all shlexSafeChar then s
  else '\'' :: replaceChar '\'' "'\"'\"'".data s ++ ['\'']

/-- Embeds `FileProcessor.escape_path_for_shell` (processor.py 98-171):
empty paths are returned unchanged; `raw_escape` applies the mode's
escape map; otherwise `shlex.quote` is used. -/
def escape_path_for_shell (path : Str) (raw_escape already_quoted : Bool) : Str :=
  if path = [] then path
  else if raw_escape then
    applyEscapeMap (if already_quoted then rawQuotedEscapeMap else rawUnquotedEscapeMap) path
  else shlexQuote path

/-- Character-wise specification of the `already_quoted` raw escape: each
of the five dangerous characters gets a backslash prefix, every other
character is untouched. -/
def rawQuotedEscapeChar (c : Char) : Str :=
  if c = '"' ∨ c = '`' ∨ c = '$' ∨ c = '\\' ∨ c = '!' then ['\\', c] else [c]

theorem replaceChar_append (c : Char) (rep : Str) (a b : Str) :
    replaceChar c rep (a ++ b) = replaceChar c rep a ++ replaceChar c rep b := by
  simp [replaceChar]

theorem applyEscapeMap_rawQuoted_eq (l : Str) :
    applyEscapeMap rawQuotedEscapeMap l =
      replaceChar '!' ['\\', '!'] (replaceChar '$' ['\\', '$']
        (replaceChar '`' ['\\', '`'] (replaceChar '"' ['\\', '"']
          (replaceChar '\\' ['\\', '\\'] l)))) := rfl

/-- C9: in RawForTemplate mode with `alreadyQuoted=true`, the escape is
exactly the character-wise map that backslash-prefixes double-quote,
backtick, dollar, backslash and exclamation (backslash handled first, so
nothing is double-escaped) and leaves every other character unchanged;
and in every mode the empty path comes back unchanged as the empty
string. -/
theorem c9_raw_quoted_escape :
    (∀ path : Str, escape_path_for_shell path true true
        = path.flatMap rawQuotedEscapeChar) ∧
    (∀ raw_escape already_quoted : Bool,
        escape_path_for_shell [] raw_escape already_quoted = []) := by
  constructor
  · intro path
    by_cases hp : path = []
    · subst hp; rfl
    · have hpt : ∀ c : Char,
          ((if c = '\\' then ['\\', '\\'] else [c]).flatMap fun x =>
            (if x = '"' then ['\\', '"'] else [x]).flatMap fun x =>
              (if x = '`' then ['\\', '`'] else [x]).flatMap fun x =>
                (if x = '$' then ['\\', '$'] else [x]).flatMap fun x =>
                  if x = '!' then ['\\', '!'] else [x])
            = rawQuotedEscapeChar c := by
        intro c
        by_cases h1 : c = '\\'
        · subst h1; decide
        by_cases h2 : c = '"'
        · subst h2; decide
        by_cases h3 : c = '`'
        · subst h3; decide
        by_cases h4 : c = '$'
        · subst h4; decide
        by_cases h5 : c = '!'
        · subst h5; decide
        simp [replaceChar, rawQuotedEscapeChar, h1, h2, h3, h4, h5]
      have he : escape_path_for_shell path true true
          = applyEscapeMap rawQuotedEscapeMap path := by
        simp [escape_path_for_shell, hp]
      rw [he, applyEscapeMap_rawQuoted_eq]
      unfold replaceChar
      rw [List.flatMap_assoc, List.flatMap_assoc, List.flatMap_assoc,
        List.flatMap_assoc]
      refine List.flatMap_congr ?_
      intro c _
      exact hpt c
  · intro raw_escape already_quoted
    cases raw_escape <;> cases already_quoted <;> rfl

/-- Python's substring test (`placeholder in template` via `str.find`,
and `re.search` of a fully escaped literal pattern): does `p` occur as a
contiguous substring? -/
def containsSub (p : Str) : Str → Bool
  | [] => List.isPrefixOf p []
  | c :: cs => List.isPrefixOf p (c :: cs) || containsSub p cs

/-- Tail of the regex `\"[^\"]*placeholder\"` after its opening quote:
either `placeholder` followed by a closing quote starts here, or one
non-quote character is consumed (the `[^\"]*` loop). -/
def dqAux (p : Str) : Str → Bool
  | [] => false
  | c :: cs =>
    List.isPrefixOf (p ++ ['"']) (c :: cs) || (decide (c ≠ '"') && dqAux p cs)

/-- Search of the regex `\"[^\"]*placeholder\"` (pattern 3 of
`is_placeholder_quoted`): an opening double quote anywhere, then
`dqAux`. -/
def dqPatternMatch (p : Str) : Str → Bool
  | [] => false
  | c :: cs => (decide (c = '"') && dqAux p cs) || dqPatternMatch p cs

/-- Embeds `FileProcessor.is_placeholder_quoted` (processor.py 61-96):
`template.find(placeholder) == -1` returns false; otherwise the four
regex patterns are searched. Pattern 1 `\"placeholder\"` and pattern 2
`\'placeholder\'` are literal substring tests; pattern 3 is
`\"[^\"]*placeholder\"`; pattern 4, written
`\'\[^\']*` + placeholder + `\'` in the source, contains a mid-pattern
`^` anchor that must match at position 0 yet stands after two mandatory
characters, so it can never match and is embedded as `false`. -/
def is_placeholder_quoted (template placeholder : Str) : Bool :=
  if containsSub placeholder template then
    containsSub ('"' :: (placeholder ++ ['"'])) template ||
    containsSub ('\'' :: (placeholder ++ ['\''])) template ||
    dqPatternMatch placeholder template ||
    false
  else false

/-- Modelled from the spec for comparison with the source's
`is_placeholder_quoted`: the claim's criterion that a double- or
single-quote character immediately precedes the placeholder token
somewhere in the template. -/
def specQuoteImmediatelyPrecedes (p : Str) : Str → Bool
  | [] => false
  | c :: cs =>
    ((decide (c = '"') || decide (c = '\'')) && List.isPrefixOf p cs) ||
    specQuoteImmediatelyPrecedes p cs

theorem containsSub_iff (p : Str) : ∀ l, containsSub p l = true ↔ ∃ a b, l = a ++ (p ++ b) := by
  intro l
  induction l with
  | nil =>
    simp only [containsSub, List.isPrefixOf_iff_prefix]
    constructor
    · intro h
      exact ⟨[], [], by simpa using (List.prefix_nil.mp h).symm⟩
    · rintro ⟨a, b, h⟩
      have := List.append_eq_nil.mp h.symm
      have := List.append_eq_nil.mp this.2
      simp [this.1]
  | cons c cs ih =>
    simp only [containsSub, Bool.or_eq_true, List.isPrefixOf_iff_prefix, ih]
    constructor
    · rintro (⟨b, hb⟩ | ⟨a, b, h⟩)
      · exact ⟨[], b, hb.symm⟩
      · exact ⟨c :: a, b, by simp [h]⟩
    · rintro ⟨a, b, h⟩
      cases a with
      | nil => exact Or.inl ⟨b, by simpa using h.symm⟩
      | cons x a =>
        right
        refine ⟨a, b, ?_⟩
        have := List.cons_eq_cons.mp h
        exact this.2

theorem dqAux_iff (p : Str) : ∀ l, dqAux p l = true ↔
    ∃ y b, l = y ++ (p ++ '"' :: b) ∧ '"' ∉ y := by
  intro l
  induction l with
  | nil =>
    simp only [dqAux]
    constructor
    · intro h; exact absurd h (by simp)
    · rintro ⟨y, b, h, -⟩
      exact absurd h.symm (by simp)
  | cons c cs ih =>
    simp only [dqAux, Bool.or_eq_true, Bool.and_eq_true, decide_eq_true_eq,
      List.isPrefixOf_iff_prefix, ih]
    constructor
    · rintro (⟨b, hb⟩ | ⟨hc, y, b, h, hy⟩)
      · refine ⟨[], ?_⟩
        rcases List.append_eq_cons_iff.mp hb with ⟨h1, h2⟩ | ⟨as, h1, h2⟩
        · exact absurd h1 (by simp)
        · exact ⟨b, by simp [← hb], by simp⟩
      · exact ⟨c :: y, b, by simp [h], by simp [hy, Ne.symm hc]⟩
    · rintro ⟨y, b, h, hy⟩
      cases y with
      | nil =>
        left
        refine ⟨b, ?_⟩
        simpa using h.symm
      | cons x y =>
        right
        have hcc := List.cons_eq_cons.mp h
        refine ⟨?_, y, b, hcc.2, ?_⟩
        · rw [hcc.1]; intro hq; exact hy (by simp [hq])
        · intro hq; exact hy (by simp [hq])

theorem dqPatternMatch_iff (p : Str) : ∀ t, dqPatternMatch p t = true ↔
    ∃ a y b, t = a ++ '"' :: (y ++ (p ++ '"' :: b)) ∧ '"' ∉ y := by
  intro t
  induction t with
  | nil =>
    simp only [dqPatternMatch]
    constructor
    · intro h; exact absurd h (by simp)
    · rintro ⟨a, y, b, h, -⟩
      exact absurd h.symm (by simp)
  | cons c cs ih =>
    simp only [dqPatternMatch, Bool.or_eq_true, Bool.and_eq_true,
      decide_eq_true_eq, dqAux_iff, ih]
    constructor
    · rintro (⟨hc, y, b, h, hy⟩ | ⟨a, y, b, h, hy⟩)
      · exact ⟨[], y, b, by simp [hc, h], hy⟩
      · exact ⟨c :: a, y, b, by simp [h], hy⟩
    · rintro ⟨a, y, b, h, hy⟩
      cases a with
      | nil =>
        left
        have hcc := List.cons_eq_cons.mp (by simpa using h)
        exact ⟨hcc.1, y, b, hcc.2, hy⟩
      | cons x a =>
        right
        have hcc := List.cons_eq_cons.mp h
        exact ⟨a, y, b, hcc.2, hy⟩

/-- C4 counterexample: the source's check is not "a quote immediately
precedes the placeholder". In `"x{input}"` no quote character stands
immediately before `{input}` (an `x` does), yet the source returns true
(its third pattern allows a prefix inside the double quotes); in
`'{input}` a single quote stands immediately before `{input}`, yet the
source returns false (its single-quote pattern also demands a closing
quote, and its fourth pattern never matches). -/
theorem c4_counterexample :
    (is_placeholder_quoted "\"x{input}\"".data "{input}".data = true ∧
     specQuoteImmediatelyPrecedes "{input}".data "\"x{input}\"".data = false) ∧
    (is_placeholder_quoted "'{input}".data "{input}".data = false ∧
     specQuoteImmediatelyPrecedes "{input}".data "'{input}".data = true) := by
  decide

/-- C4 amended: `is_placeholder_quoted` returns true exactly when the
template contains the placeholder immediately enclosed in single quotes,
or contains a double quote, then a stretch free of double quotes, then
the placeholder and a closing double quote. (A quote merely immediately
preceding the placeholder does not suffice, and a double-quoted
occurrence may have a prefix between the opening quote and the
placeholder.) -/
theorem c4_amended (t p : Str) :
    is_placeholder_quoted t p = true ↔
      ((∃ a b, t = a ++ ('\'' :: (p ++ '\'' :: b))) ∨
       (∃ a y b, t = a ++ '"' :: (y ++ (p ++ '"' :: b)) ∧ '"' ∉ y)) := by
  unfold is_placeholder_quoted
  by_cases hin : containsSub p t
  · simp only [hin, if_true, Bool.or_false, Bool.or_eq_true, containsSub_iff,
      dqPatternMatch_iff]
    constructor
    · rintro ((⟨a, b, h⟩ | ⟨a, b, h⟩) | ⟨a, y, b, h, hy⟩)
      · right
        exact ⟨a, [], b, by simpa using h, by simp⟩
      · left; exact ⟨a, b, by simpa using h⟩
      · right; exact ⟨a, y, b, h, hy⟩
    · rintro (⟨a, b, h⟩ | ⟨a, y, b, h, hy⟩)
      · left; right; exact ⟨a, b, by simpa using h⟩
      · right; exact ⟨a, y, b, h, hy⟩
  · simp only [hin, if_false]
    constructor
    · intro h; exact absurd h (by simp)
    · rintro (⟨a, b, h⟩ | ⟨a, y, b, h, hy⟩)
      · exact absurd (containsSub_iff p t |>.mpr ⟨a ++ ['\''], '\'' :: b, by simp [h]⟩) hin
      · exact absurd (containsSub_iff p t |>.mpr
          ⟨a ++ '"' :: y, '"' :: b, by simp [h]⟩) hin

/-- Python `str.format` restricted to named fields, with fuel (the input
length suffices: every step consumes at least one character). `{{` and
`}}` are brace escapes; `{name}` is looked up among the given values;
`none` models every exception the source's handlers catch (`KeyError`
for an unknown field, `ValueError` for a stray or unclosed brace) — the
source builds the same fallback command for all of them.  Conversion and
format-spec syntax (`{name!r}`, `{name:spec}`) is not modelled: this
program's four placeholders are plain names. -/
def pyFormatGo (vals : List (Str × Str)) : Nat → Str → Option Str
  | _, [] => some []
  | 0, _ :: _ => none
  | fuel + 1, '{' :: r =>
    match r with
    | '{' :: r2 => (pyFormatGo vals fuel r2).map fun s => '{' :: s
    | _ =>
      let name := r.takeWhile fun c => c ≠ '}'
      match r.dropWhile fun c => c ≠ '}' with
      | '}' :: r2 =>
        match vals.lookup name with
        | some v => (pyFormatGo vals fuel r2).map fun s => v ++ s
        | none => none
      | _ => none
  | fuel + 1, '}' :: r =>
    match r with
    | '}' :: r2 => (pyFormatGo vals fuel r2).map fun s => '}' :: s
    | _ => none
  | fuel + 1, c :: r => (pyFormatGo vals fuel r).map fun s => c :: s

/-- Entry point for the fueled formatter. -/
def pyFormat (t : Str) (vals : List (Str × Str)) : Option Str :=
  pyFormatGo vals t.length t

/-- The GUI's placeholder-hint text (gui.py 268); `build_command` only
tests that the template starts with its prefix `Use placeholders:`. -/
def uiPlaceholderHint : Str :=
  "Use placeholders: {env}, {program}, {input}, {output_dir}".data

/-- Configuration slice of the `FileProcessor` object that command
building reads (processor.py 12-16). -/
structure FileProcessor where
  processing_program : Str
  output_directory : Str
  command_template : Str
  env_vars : Str

/-- Embeds `FileProcessor.build_command` (processor.py 173-230). With a
real template: detect quoted placeholders, escape the input path and the
output directory in raw mode, substitute `env`, `program`, `input` and
`output_dir`, fall back to `env-prefix + program + input (+ output)` on
a formatting error, and run through the shell (`use_shell=True`). With
an empty template or one starting with the hint text: the default argv
`[program, *args, input_file, output_directory?]`, no shell. -/
def build_command (fp : FileProcessor) (input_file : Str) (args : List Str) :
    List Str × Bool :=
  if fp.command_template ≠ [] ∧
      ¬ List.isPrefixOf "Use placeholders:".data fp.command_template then
    let input_quoted := is_placeholder_quoted fp.command_template "{input}".data
    let output_quoted := if fp.output_directory ≠ [] then
        is_placeholder_quoted fp.command_template "{output_dir}".data else false
    let escaped_input := escape_path_for_shell input_file true input_quoted
    let escaped_output := if fp.output_directory ≠ [] then
        escape_path_for_shell fp.output_directory true output_quoted else []
    let cmd_template :=
      match pyFormat fp.command_template
          [("env".data, fp.env_vars), ("program".data, fp.processing_program),
           ("input".data, escaped_input), ("output_dir".data, escaped_output)] with
      | some s => s
      | none =>
        let env_prefix := if fp.env_vars ≠ [] then fp.env_vars ++ [' '] else []
        let base := env_prefix ++ fp.processing_program ++ ' ' :: escaped_input
        if escaped_output ≠ [] then base ++ ' ' :: escaped_output else base
    ([cmd_template], true)
  else
    let cmd := [fp.processing_program]
    let cmd := if args ≠ [] then cmd ++ args else cmd
    let cmd := cmd ++ [input_file]
    let cmd := if fp.output_directory ≠ [] then cmd ++ [fp.output_directory] else cmd
    (cmd, false)

/-- Embeds `FileProcessor.build_command_string` (processor.py 232-275),
the display-only builder. Faithful to the source, its `format` call
passes only `program`, `input` and `output_dir` — not `env` (lines
254-258) — and its fallback omits the env prefix; in the default-command
case it joins `build_command`'s argv with spaces. -/
def build_command_string (fp : FileProcessor) (input_file : Str) (args : List Str) :
    Str :=
  if fp.command_template ≠ [] ∧
      ¬ List.isPrefixOf "Use placeholders:".data fp.command_template then
    let input_quoted := is_placeholder_quoted fp.command_template "{input}".data
    let output_quoted := if fp.output_directory ≠ [] then
        is_placeholder_quoted fp.command_template "{output_dir}".data else false
    let escaped_input := escape_path_for_shell input_file true input_quoted
    let escaped_output := if fp.output_directory ≠ [] then
        escape_path_for_shell fp.output_directory true output_quoted else []
    match pyFormat fp.command_template
        [("program".data, fp.processing_program),
         ("input".data, escaped_input), ("output_dir".data, escaped_output)] with
    | some s => s
    | none =>
      let fallback := fp.processing_program ++ ' ' :: escaped_input
      if escaped_output ≠ [] then fallback ++ ' ' :: escaped_output else fallback
  else
    List.intercalate [' '] (build_command fp input_file args).1

/-- C3: the display builder does not reproduce the executing builder's
`{env}` substitution. For template `{env} {program} {input}` with
`env_vars=A=1`, `build_command` executes the shell string `A=1 p f`,
while `build_command_string` hits a `KeyError` on `env` (its `format`
call passes no `env` keyword) and falls back to `p f`. -/
theorem c3_env_divergence :
    (build_command
      ⟨"p".data, [], "{env} {program} {input}".data, "A=1".data⟩ "f".data []
      = (["A=1 p f".data], true)) ∧
    (build_command_string
      ⟨"p".data, [], "{env} {program} {input}".data, "A=1".data⟩ "f".data []
      = "p f".data) := by
  decide

/-- C6: with an empty command template, or one equal to the UI's
placeholder-hint text, `build_command` builds the default argv
`[program, *args, input_file]` with the output directory appended only
when non-empty, and selects argv mode (`use_shell = false`), never shell
mode. -/
theorem c6_default_command (fp : FileProcessor) (input_file : Str) (args : List Str)
    (h : fp.command_template = [] ∨ fp.command_template = uiPlaceholderHint) :
    build_command fp input_file args =
      (fp.processing_program :: args ++ [input_file] ++
        (if fp.output_directory = [] then [] else [fp.output_directory]), false) := by
  have hcond : ¬ (fp.command_template ≠ [] ∧
      ¬ List.isPrefixOf "Use placeholders:".data fp.command_template) := by
    rcases h with h | h
    · rw [h]; simp
    · rw [h]; simp [(by decide :
        List.isPrefixOf "Use placeholders:".data uiPlaceholderHint = true)]
  unfold build_command
  rw [if_neg hcond]
  by_cases ha : args = []
  · by_cases ho : fp.output_directory = [] <;> simp [ha, ho]
  · by_cases ho : fp.output_directory = [] <;> simp [ha, ho]

/-- C6 witness: empty template, program `P`, input `I`, output `O` gives
exactly the argv `[P, I, O]` in argv mode. -/
theorem c6_default_command_witness :
    build_command ⟨"P".data, "O".data, [], []⟩ "I".data []
      = (["P".data, "I".data, "O".data], false) :=
  (c6_default_command ⟨"P".data, "O".data, [], []⟩ "I".data [] (Or.inl rfl)).trans
    (by decide)

/-- File-system state visible to the processor: regular files with their
text contents, and directories. Association-list order stands in for the
unspecified order in which `glob.glob` returns matches. -/
structure FS where
  files : List (Str × Str)
  dirs : List Str
deriving DecidableEq

/-- Does a regular file exist at this path? -/
def FS.fileExists (fs : FS) (p : Str) : Bool :=
  (fs.files.lookup p).isSome

/-- Python `os.path.exists`: file or directory. -/
def FS.pathExists (fs : FS) (p : Str) : Bool :=
  fs.fileExists p || fs.dirs.contains p

/-- Python `os.path.getsize` (0 for a path with no file; the source only
calls it after an existence check, and wraps it in try/except). -/
def FS.getSize (fs : FS) (p : Str) : Nat :=
  ((fs.files.lookup p).getD []).length

/-- Python `open(p, "w")` followed by `write`: create or truncate. -/
def FS.writeFile (fs : FS) (p content : Str) : FS :=
  { fs with files := (p, content) :: fs.files.filter fun e => e.1 ≠ p }

/-- Python `os.remove`. -/
def FS.removeFile (fs : FS) (p : Str) : FS :=
  { fs with files := fs.files.filter fun e => e.1 ≠ p }

/-- Embeds the output-file handling of `FileProcessor.process_file` after
the child exits (processor.py 490-532). On exit code 0: if the expected
output file already exists, nothing changes (the source only logs its
size); otherwise, if the captured stdout is truthy and strips to
something non-empty, the accumulated stdout is written to the expected
output path. On a non-zero exit code: if the output path exists and
differs from the caller-supplied `input_file` argument, the file is
removed when its size is 0 or when stdout is non-blank (`file_size == 0
or (stdout and stdout.strip())`). The returned flag is the final
`os.path.exists(output_file)` check that fills `output_exists`. Write
and remove errors (caught and only logged by the source) are not
modelled; the output path is a regular file path, not a directory. -/
def handle_output_file (fs : FS) (return_code : Int) (stdout : Str)
    (input_file output_file : Str) : FS × Bool :=
  let fs1 :=
    if return_code = 0 then
      if fs.fileExists output_file then fs
      else if stdout ≠ [] ∧ pyStrip stdout ≠ [] then fs.writeFile output_file stdout
      else fs
    else fs
  let fs2 :=
    if return_code ≠ 0 then
      if fs1.fileExists output_file ∧ output_file ≠ input_file then
        if fs1.getSize output_file = 0 ∨ (stdout ≠ [] ∧ pyStrip stdout ≠ []) then
          fs1.removeFile output_file
        else fs1
      else fs1
    else fs1
  (fs2, fs2.fileExists output_file)

/-- C1: the failure-path cleanup does not spare files the external
program wrote with real content. With exit code 1, an output file
`d/out.txt` holding the program's own 7-byte content `program`, and a
non-blank captured stdout `log`, the file is deleted (the `stdout and
stdout.strip()` disjunct fires even though the file was never derived
from stdout — on the failure path stdout is never written to the file,
so no file on this path is stdout-derived). The zero-byte part of the
claim does hold: a zero-byte output file of a child that exits 1 is
removed and the final `output_exists` check reports false. -/
theorem c1_failure_cleanup_deletes_real_content :
    (handle_output_file ⟨[("d/out.txt".data, "program".data)], []⟩ 1 "log".data
        "d/in.txt".data "d/out.txt".data = (⟨[], []⟩, false) ∧
      ("program".data : Str).length ≠ 0) ∧
    handle_output_file ⟨[("d/out.txt".data, [])], []⟩ 1 [] "d/in.txt".data
        "d/out.txt".data = (⟨[], []⟩, false) := by
  decide

/-- C7 counterexample: exit code 0, no output file, stdout `"\n"`
(a child that printed only blank lines) is non-empty, yet nothing is
written — the source demands `stdout and stdout.strip()`, and
`"\n".strip()` is empty — so the claim's "stdout is non-empty" premise
is too weak. -/
theorem c7_counterexample :
    handle_output_file ⟨[], []⟩ 0 "\n".data "d/in.txt".data "d/out.txt".data
      = (⟨[], []⟩, false) ∧ "\n".data ≠ ([] : Str) := by
  decide

/-- C7 amended: when the child exits 0, the expected output file does not
exist, and the captured stdout is non-blank (strips to something
non-empty), `process_file` writes the accumulated stdout to the expected
output path, and the returned `output_exists` reflects the existence
check performed after that step, hence is true. -/
theorem c7_amended (fs : FS) (stdout input_file output_file : Str)
    (hex : fs.fileExists output_file = false)
    (hst : pyStrip stdout ≠ []) :
    ((handle_output_file fs 0 stdout input_file output_file).1.files.lookup
        output_file = some stdout) ∧
    (handle_output_file fs 0 stdout input_file output_file).2 = true := by
  have hne : stdout ≠ [] := by
    intro h; exact hst (by simp [h, pyStrip])
  have h1 : (if (0 : Int) = 0 then
      if fs.fileExists output_file then fs
      else if stdout ≠ [] ∧ pyStrip stdout ≠ [] then fs.writeFile output_file stdout
      else fs
    else fs) = fs.writeFile output_file stdout := by
    simp [hex, hne, hst]
  have hlook : (fs.writeFile output_file stdout).files.lookup output_file
      = some stdout := by
    simp [FS.writeFile]
  have hfe : (fs.writeFile output_file stdout).fileExists output_file = true := by
    simp [FS.fileExists, hlook]
  unfold handle_output_file
  rw [h1]
  simp [hfe, hlook]

/-- C7 amended, witnessed at exit 0, empty file system, stdout `ok`. -/
theorem c7_amended_witness :
    ((handle_output_file ⟨[], []⟩ 0 "ok".data "d/in.txt".data
        "d/out.txt".data).1.files.lookup "d/out.txt".data = some "ok".data) ∧
    (handle_output_file ⟨[], []⟩ 0 "ok".data "d/in.txt".data
        "d/out.txt".data).2 = true :=
  c7_amended ⟨[], []⟩ "ok".data "d/in.txt".data "d/out.txt".data
    (by decide) (by decide)

/-- Python `os.path.basename`: the part after the last slash. -/
def os_path_basename (p : Str) : Str :=
  (p.reverse.takeWhile fun c => c ≠ '/').reverse

/-- Python `os.path.dirname`: the part before the last slash, with
trailing slashes stripped unless the head is all slashes. -/
def os_path_dirname (p : Str) : Str :=
  let head := (p.reverse.dropWhile fun c => c ≠ '/').reverse
  if head = [] then []
  else if head.all fun c => c = '/' then head
  else (head.reverse.dropWhile fun c => c = '/').reverse

/-- Embeds the new-file reconciliation of the GUI (gui.py 1005-1017 in
`processing_complete`, and identically gui.py 814-821 in the side-by-side
loop): under the guard `if pre_files and post_files:` — both snapshots
non-empty — keep each post-snapshot file whose basename is not among the
pre-snapshot basenames; with either snapshot empty, `new_files` stays
empty. The function is pure, so diffing the same pair twice returns the
same result. -/
def findNewFiles (pre post : List Str) : List Str :=
  if pre ≠ [] ∧ post ≠ [] then
    post.filter fun f =>
      ¬ (pre.map os_path_basename).contains (os_path_basename f)
  else []

/-- C2 counterexample: with an empty pre-snapshot (a fresh output
directory) and a non-empty post-snapshot, the code reports nothing new —
the `if pre_files and post_files:` guard skips the diff — while the
claim demands that every post-snapshot file be reported. -/
theorem c2_counterexample :
    findNewFiles [] ["out/a.txt".data] = [] ∧
    findNewFiles [] ["out/a.txt".data] ≠ ["out/a.txt".data] := by
  decide

/-- C2 amended: when both snapshots are non-empty, a file is reported as
new exactly when it is in the post-snapshot and its basename is absent
from the pre-snapshot; when either snapshot is empty, nothing is
reported (in particular a fresh, initially empty output directory never
reports new files); equal snapshots always give the empty result, and
the function is pure, so diffing the same unchanged pair twice gives the
same empty result. -/
theorem c2_amended (pre post : List Str) :
    (∀ f, pre ≠ [] → post ≠ [] →
      (f ∈ findNewFiles pre post ↔
        (f ∈ post ∧ ∀ g ∈ pre, os_path_basename g ≠ os_path_basename f))) ∧
    (pre = [] ∨ post = [] → findNewFiles pre post = []) ∧
    (pre = post → findNewFiles pre post = []) := by
  have hmem : ∀ f, pre ≠ [] → post ≠ [] →
      (f ∈ findNewFiles pre post ↔
        (f ∈ post ∧ ∀ g ∈ pre, os_path_basename g ≠ os_path_basename f)) := by
    intro f hpre hpost
    simp only [findNewFiles, if_pos (And.intro hpre hpost), List.mem_filter,
      decide_eq_true_eq, List.contains, List.elem_iff, List.mem_map]
    constructor
    · rintro ⟨hf, hnot⟩
      refine ⟨hf, fun g hg hbe => hnot ⟨g, hg, hbe⟩⟩
    · rintro ⟨hf, hall⟩
      refine ⟨hf, fun h => ?_⟩
      rcases h with ⟨g, hg, hbe⟩
      exact hall g hg hbe
  refine ⟨hmem, ?_, ?_⟩
  · rintro (h | h) <;> simp [findNewFiles, h]
  · intro h
    subst h
    cases hp : pre with
    | nil => simp [findNewFiles]
    | cons x xs =>
      rw [← hp]
      refine List.eq_nil_iff_forall_not_mem.mpr ?_
      intro f hf
      rw [hmem f (by rw [hp]; simp) (by rw [hp]; simp)] at hf
      exact hf.2 f hf.1 rfl

/-- Per-file batch state after a run of `process_files_batch`
(processor.py 592-681), with each file's processing abstracted to its
success flag: the produced result list, the success and failure
counters, and the `is_processing` flag (reset in the loop epilogue). -/
structure BatchState where
  results : List Bool
  processed_count : Nat
  failed_count : Nat
  is_processing : Bool
deriving DecidableEq

/-- Loop body of `process_files_batch`: at the boundary before file `i`
the loop reads the shared `should_stop` flag (modelled by the schedule
`stopAt`, set asynchronously by `stop_processing`, processor.py
739-743) and breaks when it is set; otherwise the file runs to
completion — atomically between boundary checks, so a stop request never
pre-empts a file in flight — and is counted as processed or failed. -/
def batchLoop (stopAt : Nat → Bool) : Nat → List Bool → List Bool × Nat × Nat
  | _, [] => ([], 0, 0)
  | i, o :: os =>
    if stopAt i then ([], 0, 0)
    else
      let rest := batchLoop stopAt (i + 1) os
      (o :: rest.1, (if o then 1 else 0) + rest.2.1, (if o then 0 else 1) + rest.2.2)

/-- Embeds `process_files_batch` over abstracted per-file outcomes: run
the boundary-checked loop from index 0 and clear `is_processing` on
every exit path (the epilogue after the `for` loop runs both on normal
completion and after a `break`). -/
def process_files_batch (outcomes : List Bool) (stopAt : Nat → Bool) : BatchState :=
  let r := batchLoop stopAt 0 outcomes
  { results := r.1, processed_count := r.2.1, failed_count := r.2.2,
    is_processing := false }

/-- C8: in a 3-file batch where the stop flag becomes visible right after
file 1 completes (the schedule is true at every boundary from index 1
on), the loop exits at the next file boundary with exactly one
ProcessingResult, `processed_count + failed_count = 1 < 3 = total`, and
`is_processing` false afterward — whatever each file's outcome would
have been. Cancellation acts only at boundaries: in the model a file's
outcome is appended atomically before the next check, mirroring the
source, whose only stop check is at the top of the loop. -/
theorem c8_cancellation_boundary :
    ∀ o1 o2 o3 : Bool,
      (process_files_batch [o1, o2, o3] fun i => decide (1 ≤ i)).results.length = 1 ∧
      (process_files_batch [o1, o2, o3] fun i => decide (1 ≤ i)).processed_count +
        (process_files_batch [o1, o2, o3] fun i => decide (1 ≤ i)).failed_count = 1 ∧
      (process_files_batch [o1, o2, o3] fun i => decide (1 ≤ i)).processed_count +
        (process_files_batch [o1, o2, o3] fun i => decide (1 ≤ i)).failed_count < 3 ∧
      (process_files_batch [o1, o2, o3] fun i => decide (1 ≤ i)).is_processing = false := by
  decide

/-- The `escape_sequences` table of `normalize_file_path` (processor.py
766-792): each backslash-escape (backslash plus the listed character) is
replaced by the literal character; `t`, `n`, `r` map to tab, newline,
carriage return. Pairs are applied in the source's iteration order. -/
def escapeSequencePairs : List (Char × Char) :=
  [(' ', ' '), ('"', '"'), ('\'', '\''), ('$', '$'), ('\\', '\\'),
   ('`', '`'), ('&', '&'), ('|', '|'), (';', ';'), ('<', '<'), ('>', '>'),
   ('(', '('), (')', ')'), ('{', '{'), ('}', '}'), ('[', '['), (']', ']'),
   ('*', '*'), ('?', '?'), ('~', '~'), ('#', '#'), ('!', '!'),
   ('t', '\t'), ('n', '\n'), ('r', '\r')]

/-- Python `str.replace` for the two-character pattern backslash +
`second`, replaced by the single character `rep`, left to right and
non-overlapping. -/
def replaceEsc (second rep : Char) : Str → Str
  | [] => []
  | [a] => [a]
  | a :: b :: rest =>
    if a = '\\' ∧ b = second then rep :: replaceEsc second rep rest
    else a :: replaceEsc second rep (b :: rest)

/-- Sequential application of every escape-sequence replacement. -/
def unescapeAll (l : Str) : Str :=
  escapeSequencePairs.foldl (fun acc e => replaceEsc e.1 e.2 acc) l

/-- Python `re.sub(r'\s+', ' ', s)`: collapse every whitespace run to a
single space (`prevWs` tracks whether the previous character was part of
a run already emitted as one space). -/
def collapseWsGo (prevWs : Bool) : Str → Str
  | [] => []
  | c :: cs =>
    if pyIsSpace c then
      if prevWs then collapseWsGo true cs else ' ' :: collapseWsGo true cs
    else c :: collapseWsGo false cs

/-- Whitespace-run collapsing from a clean start. -/
def collapseWs (l : Str) : Str := collapseWsGo false l

/-- The unconditional rewriting pipeline of `normalize_file_path`
(processor.py 759-800): strip, undo backslash escapes, collapse
whitespace runs. -/
def rewritePath (p : Str) : Str := collapseWs (unescapeAll (pyStrip p))

/-- Bounded matcher for the wildcard patterns `glob` receives here: `*`
matches any run, `?` one character, anything else itself. Each step
consumes a pattern or a subject character, so pattern length plus
subject length is enough fuel. Character classes (`[...]`) are not
modelled: the patterns built by the source are a basename with spaces
turned into `*`. -/
def globMatchGo : Nat → Str → Str → Bool
  | 0, p, n => p.isEmpty && n.isEmpty
  | _ + 1, [], n => n.isEmpty
  | fuel + 1, '*' :: ps, [] => globMatchGo fuel ps []
  | fuel + 1, '*' :: ps, c :: cs =>
    globMatchGo fuel ps (c :: cs) || globMatchGo fuel ('*' :: ps) cs
  | _ + 1, _ :: _, [] => false
  | fuel + 1, p :: ps, c :: cs => (p = '?' || p = c) && globMatchGo fuel ps cs

/-- Wildcard match as `glob.glob` applies it to one path component: a
name starting with a dot is only matched by a pattern that also starts
with a dot. -/
def globMatch (pattern name : Str) : Bool :=
  if name.head? = some '.' ∧ pattern.head? ≠ some '.' then false
  else globMatchGo (pattern.length + name.length + 1) pattern name

/-- Embeds `FileProcessor.normalize_file_path` (processor.py 749-815):
empty paths pass through; otherwise the path is rewritten (strip, undo
escapes, collapse whitespace) before any existence check; if the
rewritten path does not exist but its directory does, `glob` is asked
for files of that directory whose basename matches the rewritten
basename with spaces turned into `*`, and the first match (association
order stands in for the unspecified `glob` order) replaces the path;
otherwise the rewritten path is returned as is. -/
def normalize_file_path (fs : FS) (file_path : Str) : Str :=
  if file_path = [] then file_path
  else
    let normalized := rewritePath file_path
    if fs.pathExists normalized then normalized
    else
      let dir_path := os_path_dirname normalized
      if dir_path ≠ [] ∧ fs.pathExists dir_path then
        let pattern := (os_path_basename normalized).map
          fun c => if c = ' ' then '*' else c
        match (fs.files.filter fun e =>
            os_path_dirname e.1 = dir_path ∧
            globMatch pattern (os_path_basename e.1)).head? with
        | some e => e.1
        | none => normalized
      else normalized

/-- Input-validation phase of `process_file` (processor.py 320-337): no
program configured is an immediate error; otherwise the caller-supplied
path is normalized first, and the existence check and the error message
use the normalized path, not the supplied one. -/
def process_file_input_phase (fs : FS) (program input_file : Str) : Except Str Str :=
  if program = [] then .error "No processing program specified".data
  else
    let normalized := normalize_file_path fs input_file
    if ¬ fs.pathExists normalized then
      .error ("Input file not found: ".data ++ normalized)
    else .ok normalized

/-- C10: `process_file` rewrites the supplied path before any existence
check (the not-found error names the rewritten path); the rewrite
strips, undoes backslash escapes and collapses whitespace runs; when the
rewritten path exists it is used directly; when it does not, a glob
match may substitute an existing file (spaces in the basename become
wildcards, demonstrated by the recovery of `d/a  b.txt`); and a file
whose actual name contains a literal backslash sequence, or consecutive
spaces in its directory part, is addressed under a different,
non-existing name than the one the caller supplied. -/
theorem c10_normalization :
    (∀ (fs : FS) (p : Str), p ≠ [] → fs.pathExists (rewritePath p) = true →
        normalize_file_path fs p = rewritePath p) ∧
    (∀ (fs : FS) (program p : Str), program ≠ [] →
        fs.pathExists (normalize_file_path fs p) = false →
        process_file_input_phase fs program p
          = .error ("Input file not found: ".data ++ normalize_file_path fs p)) ∧
    rewritePath "  a.txt ".data = "a.txt".data ∧
    rewritePath "a\\ b.txt".data = "a b.txt".data ∧
    rewritePath "a  b.txt".data = "a b.txt".data ∧
    (normalize_file_path ⟨[("d/f\\$.txt".data, "c".data)], ["d".data]⟩
        "d/f\\$.txt".data = "d/f$.txt".data ∧
      FS.fileExists ⟨[("d/f\\$.txt".data, "c".data)], ["d".data]⟩
        "d/f\\$.txt".data = true ∧
      FS.pathExists ⟨[("d/f\\$.txt".data, "c".data)], ["d".data]⟩
        "d/f$.txt".data = false) ∧
    normalize_file_path ⟨[("my  dir/a.txt".data, "x".data)], ["my  dir".data]⟩
        "my  dir/a.txt".data = "my dir/a.txt".data ∧
    normalize_file_path ⟨[("d/a  b.txt".data, "x".data)], ["d".data]⟩
        "d/a  b.txt".data = "d/a  b.txt".data := by
  refine ⟨?_, ?_, by decide, by decide, by decide, by decide, by decide, by decide⟩
  · intro fs p hp hex
    simp [normalize_file_path, hp, hex]
  · intro fs program p hprog hex
    simp [process_file_input_phase, hprog, hex]

/-- C10 witness: the first general conjunct applied to a one-file system
whose path needs no rewriting, and the second to a missing file: the
not-found error names the normalized path. -/
theorem c10_normalization_witness :
    normalize_file_path ⟨[("d/a.txt".data, "x".data)], ["d".data]⟩ "d/a.txt".data
      = rewritePath "d/a.txt".data ∧
    process_file_input_phase ⟨[], []⟩ "prog".data "d/gone.txt".data
      = .error ("Input file not found: ".data
          ++ normalize_file_path ⟨[], []⟩ "d/gone.txt".data) :=
  ⟨c10_normalization.1 ⟨[("d/a.txt".data, "x".data)], ["d".data]⟩ "d/a.txt".data
      (by decide) (by decide),
    c10_normalization.2.1 ⟨[], []⟩ "prog".data "d/gone.txt".data
      (by decide) (by decide)⟩
